import Mathlib

/-!
Shallow embedding of the `better-shop` service core: the composable
endpoint registry (store / products / collections / checkout builders),
the per-request tenant resolver (`makeGetShop`), the per-endpoint
arktype validation-and-coercion schemas, and the dispatch pipeline that
better-call runs over the assembled router.

Source files embedded: `src/shop/getShop.ts`, `src/shop/store.ts`,
`src/shop/products.ts`, the collections builder, the checkout builder
and `src/shop-service.ts`.  The external `shop-client` capability object
is modelled as an abstract structure of result functions; each delegate
invocation is recorded as an element of a call trace so that claims of
the form "the capability is (never) invoked with these arguments" are
statable.
-/

namespace BetterShop

/-- Model of a JavaScript number as produced by `Number(..)` coercion on
query-string values: either NaN or an integer.  The claims only exercise
integer-literal and non-numeric strings, so fractional, exponent and hex
literal forms are outside the modelled subset. -/
inductive JsNum where
  | nan : JsNum
  | int : Int → JsNum
deriving DecidableEq, Repr

/-- JSON-like value type for request bodies and response payloads. -/
inductive Value where
  | vNull : Value
  | vBool : Bool → Value
  | vNum : JsNum → Value
  | vStr : String → Value
  | vArr : List Value → Value
  | vObj : List (String × Value) → Value

/-- Digit-string value: `digitsVal ['2','5'] = 25`. -/
def digitsVal (cs : List Char) : Int :=
  cs.foldl (fun a c => 10 * a + ((c.toNat : Int) - ('0'.toNat : Int))) 0

/-- Model of JavaScript `Number(s)` on the string subset exercised by the
claims: an optionally signed run of decimal digits parses to the integer
it denotes, the empty string parses to `0` (JS semantics), and any other
string yields NaN. -/
def jsNumber (s : String) : JsNum :=
  match s.data with
  | [] => JsNum.int 0
  | c :: rest =>
      if c = '-' then
        (if rest ≠ [] ∧ rest.all Char.isDigit then JsNum.int (-(digitsVal rest))
         else JsNum.nan)
      else if c = '+' then
        (if rest ≠ [] ∧ rest.all Char.isDigit then JsNum.int (digitsVal rest)
         else JsNum.nan)
      else if (c :: rest).all Char.isDigit then JsNum.int (digitsVal (c :: rest))
      else JsNum.nan

/-- Union value `string|number` as accepted by the paginated query
schemas (`"page?": "string|number"`). -/
inductive StrNum where
  | s : String → StrNum
  | n : JsNum → StrNum
deriving DecidableEq, Repr

/-- JavaScript truthiness of an optional `string|number` value:
`undefined`, the empty string, `0` and NaN are falsy. -/
def truthy : Option StrNum → Bool
  | none => false
  | some (StrNum.s v) => v ≠ ""
  | some (StrNum.n JsNum.nan) => false
  | some (StrNum.n (JsNum.int i)) => i ≠ 0

/-- Embedding of the arktype pipe `v.page ? Number(v.page) : undefined`
(`src/shop/products.ts` lines 52-53 and the analogous collection pipes):
a truthy value is coerced with `Number(..)` (identity on numbers),
anything falsy becomes `undefined`. -/
def coerceNum (v : Option StrNum) : Option JsNum :=
  if truthy v then
    match v with
    | some (StrNum.s str) => some (jsNumber str)
    | some (StrNum.n num) => some num
    | none => none
  else none

/-- Request headers as an association list of name/value pairs. -/
def Headers := List (String × String)

/-- ASCII lower-casing of one character. -/
def lowerChar (c : Char) : Char :=
  if 'A' ≤ c ∧ c ≤ 'Z' then Char.ofNat (c.toNat + 32) else c

/-- ASCII lower-casing of a string. -/
def lowerStr (s : String) : String :=
  String.mk (s.data.map lowerChar)

/-- Header lookup, case-insensitive in the name as with the web
`Headers.get` API; absent headers yield `none` (JS `null`). -/
def headersGet (hs : Headers) (name : String) : Option String :=
  (List.find? (fun p => lowerStr p.1 == lowerStr name) hs).map (fun p => p.2)

/-- Options passed once at service construction (`ShopClientOptions`),
e.g. the cache lifetime used in `test-client.ts` (`cacheTTL: 60_000`). -/
structure ShopClientOptions where
  cacheTTL : Option Nat := none

/-- Validated checkout line item (`items` elements of the checkout body
schema): `{ productVariantId: string, quantity: string }`. -/
structure CheckoutItem where
  productVariantId : String
  quantity : String
deriving DecidableEq, Repr

/-- Validated checkout address: eight required string fields. -/
structure Address where
  firstName : String
  lastName : String
  address1 : String
  city : String
  zip : String
  country : String
  province : String
  phone : String
deriving DecidableEq, Repr

/-- Validated checkout body: `email` in email format, `items` an array
of line items, `address` the required address object. -/
structure CheckoutBody where
  email : String
  items : List CheckoutItem
  address : Address
deriving DecidableEq, Repr

/-- Validated `POST /store-type` body: four optional fields. -/
structure StoreTypeBody where
  apiKey : Option String
  model : Option String
  maxShowcaseProducts : Option JsNum
  maxShowcaseCollections : Option JsNum
deriving DecidableEq, Repr

/-- Validated `POST /products/:handle/enriched` body. -/
structure EnrichedBody where
  apiKey : Option String
  useGfm : Option Bool
  inputType : Option String
  model : Option String
  outputFormat : Option String
deriving DecidableEq, Repr

/-- Validated classify / SEO body: `{ apiKey?: string, model?: string }`. -/
structure ClassifyBody where
  apiKey : Option String
  model : Option String
deriving DecidableEq, Repr

/-- Characters admitted in the local part of arktype's `string.email`
keyword (modelled from its email regular expression). -/
def emailLocalChar (c : Char) : Bool :=
  c.isAlphanum || c = '_' || c = '%' || c = '+' || c = '.' || c = '-'

/-- Splits a character list on a separator character. -/
def splitOnChar (sep : Char) (cs : List Char) : List (List Char) :=
  match cs with
  | [] => [[]]
  | c :: rest =>
      let tail := splitOnChar sep rest
      if c = sep then [] :: tail
      else
        match tail with
        | [] => [[c]]
        | t :: ts => (c :: t) :: ts

/-- Model of arktype's `string.email` format check: one `@`, a non-empty
local part over the admitted characters, and a dot-separated domain whose
final label is at least two letters. -/
def isEmailFormat (s : String) : Bool :=
  match splitOnChar '@' s.data with
  | [locPart, domain] =>
      locPart ≠ [] && locPart.all emailLocalChar &&
      (let labels := splitOnChar '.' domain
       decide (2 ≤ labels.length) && labels.all (fun l => l ≠ []) &&
       (match labels.getLast? with
        | some last => decide (2 ≤ last.length) && last.all Char.isAlpha
        | none => false))
  | _ => false

/-- Record of one delegate invocation on the storefront client, carrying
exactly the arguments the source hands to the capability (for example
`shop.products.paginated({ page, limit, currency })` is recorded as
`productsPaginated page limit currency`). -/
inductive CapCall where
  | getInfoCall : Bool → CapCall
  | clearInfoCacheCall : CapCall
  | determineStoreTypeCall : StoreTypeBody → CapCall
  | productsAll : Option String → CapCall
  | productsPaginated : Option JsNum → Option JsNum → Option String → CapCall
  | productsShowcased : CapCall
  | productsFilter : CapCall
  | productsFind : String → Option String → CapCall
  | productsEnriched : String → EnrichedBody → CapCall
  | productsClassify : String → ClassifyBody → CapCall
  | productsSEO : String → ClassifyBody → CapCall
  | collectionsAll : CapCall
  | collectionsPaginated : Option JsNum → Option JsNum → CapCall
  | collectionsShowcased : CapCall
  | collectionsFind : String → CapCall
  | colProductsAll : String → Option String → CapCall
  | colProductsPaginated : String → Option JsNum → Option JsNum → Option String → CapCall
  | colProductsSlugs : String → CapCall
  | checkoutCreateUrl : CheckoutBody → CapCall

/-- Abstract model of the external `shop-client` capability object: one
result function per capability consumed by the endpoint builders.  The
`find` capabilities return `Option Value` (`Product | null`); the
checkout capability returns the constructed URL string. -/
structure ShopClient where
  infoResult : Bool → Value
  determineStoreTypeResult : StoreTypeBody → Value
  productsAllResult : Option String → Value
  productsPaginatedResult : Option JsNum → Option JsNum → Option String → Value
  productsShowcasedResult : Value
  productsFilterResult : Value
  productsFindResult : String → Option String → Option Value
  productsEnrichedResult : String → EnrichedBody → Value
  productsClassifyResult : String → ClassifyBody → Value
  productsSEOResult : String → ClassifyBody → Value
  collectionsAllResult : Value
  collectionsPaginatedResult : Option JsNum → Option JsNum → Value
  collectionsShowcasedResult : Value
  collectionsFindResult : String → Option Value
  colProductsAllResult : String → Option String → Value
  colProductsPaginatedResult : String → Option JsNum → Option JsNum → Option String → Value
  colProductsSlugsResult : String → Value
  checkoutCreateUrlResult : CheckoutBody → String

/-- Constructor of the external client class: `new ShopClient(domain,
options)`.  Kept abstract so theorems quantify over every compliant
storefront client implementation (and in particular over every internal
cache state the client may hold). -/
def ClientCtor := String → Option ShopClientOptions → ShopClient

/-- Type of the tenant resolver produced by `makeGetShop`. -/
def GetShop := Headers → Except String ShopClient

/-- Embedding of `makeGetShop` (`src/shop/getShop.ts` lines 3-11): reads
the `x-shop-domain` header; a missing (or empty, JS-falsy) value throws
`"x-shop-domain header is required"`, otherwise a fresh `ShopClient` is
constructed from the domain and the service-wide options. -/
def makeGetShop (impl : ClientCtor) (options : Option ShopClientOptions) : GetShop :=
  fun headers =>
    match headersGet headers "x-shop-domain" with
    | none => Except.error "x-shop-domain header is required"
    | some domain =>
        if domain = "" then Except.error "x-shop-domain header is required"
        else Except.ok (impl domain options)

/-- HTTP method of a route. -/
inductive Method where
  | GET : Method
  | POST : Method
deriving DecidableEq, Repr

/-- An incoming request: method, path split into segments, headers,
query parameters as decoded string pairs, and an optional JSON body. -/
structure Request where
  method : Method
  path : List String
  headers : Headers
  query : List (String × String)
  body : Option Value

/-- Query lookup on the decoded query-parameter pairs. -/
def queryGet (q : List (String × String)) (name : String) : Option String :=
  (List.find? (fun p => p.1 == name) q).map (fun p => p.2)

/-- Validated query view of an operation, after arktype coercion pipes. -/
inductive QueryV where
  | qNone : QueryV
  | qForce : Bool → QueryV
  | qCurrency : Option String → QueryV
  | qPag : Option JsNum → Option JsNum → Option String → QueryV
  | qPagNC : Option JsNum → Option JsNum → QueryV

/-- Validated body view of an operation. -/
inductive BodyV where
  | bNone : BodyV
  | bStoreType : StoreTypeBody → BodyV
  | bEnriched : EnrichedBody → BodyV
  | bClassify : ClassifyBody → BodyV
  | bCheckout : CheckoutBody → BodyV

/-- ValidatedInput for one invocation: raw path parameters bound by the
route pattern plus the validated query and body views. -/
structure VInput where
  params : List (String × String)
  query : QueryV
  body : BodyV

/-- Outcome of one handler run: a success value or a thrown failure,
together with the trace of delegate invocations made along the way. -/
inductive Handled where
  | ok : List CapCall → Value → Handled
  | fail : List CapCall → String → Handled

/-- Field lookup on a JSON object value. -/
def getField (v : Value) (k : String) : Option Value :=
  match v with
  | Value.vObj fs => (List.find? (fun p => p.1 == k) fs).map (fun p => p.2)
  | _ => none

/-- Validation of an optional string field (`"k?": "string"`). -/
def optStringField (v : Value) (k : String) : Except String (Option String) :=
  match getField v k with
  | none => Except.ok none
  | some (Value.vStr s) => Except.ok (some s)
  | some _ => Except.error (k ++ " must be a string")

/-- Validation of an optional number field (`"k?": "number"`). -/
def optNumField (v : Value) (k : String) : Except String (Option JsNum) :=
  match getField v k with
  | none => Except.ok none
  | some (Value.vNum n) => Except.ok (some n)
  | some _ => Except.error (k ++ " must be a number")

/-- Validation of an optional boolean field (`"k?": "boolean"`). -/
def optBoolField (v : Value) (k : String) : Except String (Option Bool) :=
  match getField v k with
  | none => Except.ok none
  | some (Value.vBool b) => Except.ok (some b)
  | some _ => Except.error (k ++ " must be a boolean")

/-- Validation of an optional string-literal union field such as
`"inputType?": "'markdown'|'html'"`. -/
def optLiteralField (v : Value) (k : String) (allowed : List String) :
    Except String (Option String) :=
  match getField v k with
  | none => Except.ok none
  | some (Value.vStr s) =>
      if s ∈ allowed then Except.ok (some s)
      else Except.error (k ++ " must be one of the allowed literals")
  | some _ => Except.error (k ++ " must be a string")

/-- Validation of a required string field. -/
def reqStringField (v : Value) (k : String) : Except String String :=
  match getField v k with
  | some (Value.vStr s) => Except.ok s
  | _ => Except.error (k ++ " must be a string")

/-- Embedding of the `POST /store-type` body schema
(`src/shop/store.ts` lines 75-80). -/
def validateStoreTypeBody (b : Option Value) : Except String StoreTypeBody :=
  match b with
  | some (Value.vObj fs) => do
      let v := Value.vObj fs
      let apiKey ← optStringField v "apiKey"
      let model ← optStringField v "model"
      let maxP ← optNumField v "maxShowcaseProducts"
      let maxC ← optNumField v "maxShowcaseCollections"
      pure { apiKey := apiKey, model := model,
             maxShowcaseProducts := maxP, maxShowcaseCollections := maxC }
  | _ => Except.error "must be an object"

/-- Embedding of the `POST /products/:handle/enriched` body schema
(`src/shop/products.ts` lines 195-201). -/
def validateEnrichedBody (b : Option Value) : Except String EnrichedBody :=
  match b with
  | some (Value.vObj fs) => do
      let v := Value.vObj fs
      let apiKey ← optStringField v "apiKey"
      let useGfm ← optBoolField v "useGfm"
      let inputType ← optLiteralField v "inputType" ["markdown", "html"]
      let model ← optStringField v "model"
      let outputFormat ← optLiteralField v "outputFormat" ["markdown", "json"]
      pure { apiKey := apiKey, useGfm := useGfm, inputType := inputType,
             model := model, outputFormat := outputFormat }
  | _ => Except.error "must be an object"

/-- Embedding of the classify / SEO body schema
(`src/shop/products.ts` lines 235 and 269). -/
def validateClassifyBody (b : Option Value) : Except String ClassifyBody :=
  match b with
  | some (Value.vObj fs) => do
      let v := Value.vObj fs
      let apiKey ← optStringField v "apiKey"
      let model ← optStringField v "model"
      pure { apiKey := apiKey, model := model }
  | _ => Except.error "must be an object"

/-- Validation of one element of the checkout `items` array:
`{ productVariantId: string, quantity: string }`. -/
def parseItem (v : Value) : Except String CheckoutItem :=
  match v with
  | Value.vObj _ => do
      let pid ← reqStringField v "productVariantId"
      let qty ← reqStringField v "quantity"
      pure { productVariantId := pid, quantity := qty }
  | _ => Except.error "item must be an object"

/-- Validation of the checkout `address` object: eight required string
fields. -/
def parseAddress (ov : Option Value) : Except String Address :=
  match ov with
  | some (Value.vObj fs) => do
      let v := Value.vObj fs
      let firstName ← reqStringField v "firstName"
      let lastName ← reqStringField v "lastName"
      let address1 ← reqStringField v "address1"
      let city ← reqStringField v "city"
      let zip ← reqStringField v "zip"
      let country ← reqStringField v "country"
      let province ← reqStringField v "province"
      let phone ← reqStringField v "phone"
      pure { firstName := firstName, lastName := lastName,
             address1 := address1, city := city, zip := zip,
             country := country, province := province, phone := phone }
  | _ => Except.error "address must be an object"

/-- Embedding of the `POST /checkout/url` body schema (the checkout
builder: `email: "string.email"`, `items: {..}.array()`, `address`
object of eight required strings).  The arktype `.array()` combinator
accepts every array of valid elements, the empty array included. -/
def validateCheckoutBody (b : Option Value) : Except String CheckoutBody :=
  match b with
  | some (Value.vObj fs) =>
      let v := Value.vObj fs
      match getField v "email" with
      | some (Value.vStr e) =>
          if isEmailFormat e then
            match getField v "items" with
            | some (Value.vArr xs) => do
                let items ← xs.mapM parseItem
                let addr ← parseAddress (getField v "address")
                pure { email := e, items := items, address := addr }
            | _ => Except.error "items must be an array"
          else Except.error "email must be an email address"
      | _ => Except.error "email must be a string"
  | _ => Except.error "must be an object"

/-- Embedding of the `GET /info` query schema and pipe
(`src/shop/store.ts` lines 12-14): `force` is an optional string and
the pipe yields the boolean `v.force === "true"` — note the pipe runs
also when `force` is omitted, producing `false`. -/
def infoQueryV (q : List (String × String)) : QueryV :=
  QueryV.qForce (queryGet q "force" == some "true")

/-- Embedding of the `"currency?": "string"` query schema. -/
def currencyQueryV (q : List (String × String)) : QueryV :=
  QueryV.qCurrency (queryGet q "currency")

/-- Embedding of the paginated query schema with currency
(`src/shop/products.ts` lines 47-55): `page` and `limit` are optional
`string|number` values piped through `v ? Number(v) : undefined`.
Query-string values always arrive as strings at the transport. -/
def pagQueryV (q : List (String × String)) : QueryV :=
  QueryV.qPag (coerceNum ((queryGet q "page").map StrNum.s))
    (coerceNum ((queryGet q "limit").map StrNum.s))
    (queryGet q "currency")

/-- Embedding of the collections paginated query schema (no currency). -/
def pagNCQueryV (q : List (String × String)) : QueryV :=
  QueryV.qPagNC (coerceNum ((queryGet q "page").map StrNum.s))
    (coerceNum ((queryGet q "limit").map StrNum.s))

/-- An OperationDefinition: route path (may contain `:named` segments),
HTTP method, input validator (over bound path parameters, query pairs
and optional body) and handler.  The handler receives the tenant
resolver and the raw headers, mirroring the source where every handler
body begins with `const shop = getShop(ctx.headers)`. -/
structure Endpoint where
  method : Method
  path : String
  validate : List (String × String) → List (String × String) → Option Value →
    Except String VInput
  handle : GetShop → Headers → VInput → Handled

/-- Path split into non-empty segments. -/
def segsOf (p : String) : List String :=
  ((splitOnChar '/' p.data).map String.mk).filter (fun s => s ≠ "")

/-- Structural match of a route pattern against request path segments;
a segment written `:name` binds the corresponding request segment. -/
def matchSegs : List String → List String → Option (List (String × String))
  | [], [] => some []
  | pseg :: ps, rseg :: rs =>
      match pseg.data with
      | ':' :: rest =>
          (matchSegs ps rs).map (fun acc => (String.mk rest, rseg) :: acc)
      | _ => if pseg = rseg then matchSegs ps rs else none
  | _, _ => none

/-- Modelled from the spec (§4.4 route matching of the better-call
router, whose source is not part of this repository): exact method
match plus structural path match; the first structural match in
registry order wins, and the source registry lists literal routes
before parameterized ones, giving literal-over-parameter precedence. -/
def findRoute (eps : List Endpoint) (m : Method) (path : List String) :
    Option (Endpoint × List (String × String)) :=
  match eps with
  | [] => none
  | e :: rest =>
      if e.method = m then
        match matchSegs (segsOf e.path) path with
        | some ps => some (e, ps)
        | none => findRoute rest m path
      else findRoute rest m path

/-- Embedding of the `GET /info` operation (`src/shop/store.ts` lines
8-39): coerced `force` flag handed to `shop.getInfo({ force })`. -/
def getInfo : Endpoint where
  method := Method.GET
  path := "/info"
  validate := fun params q _ => Except.ok ⟨params, infoQueryV q, BodyV.bNone⟩
  handle := fun getShop headers vi =>
    match getShop headers with
    | Except.error m => Handled.fail [] m
    | Except.ok shop =>
        match vi.query with
        | QueryV.qForce f => Handled.ok [CapCall.getInfoCall f] (shop.infoResult f)
        | _ => Handled.fail [] "unexpected input shape"

/-- Embedding of the `POST /info/clear-cache` operation
(`src/shop/store.ts` lines 41-69): invokes `shop.clearInfoCache()` and
returns `{ success: true }`. -/
def clearInfoCache : Endpoint where
  method := Method.POST
  path := "/info/clear-cache"
  validate := fun params _ _ => Except.ok ⟨params, QueryV.qNone, BodyV.bNone⟩
  handle := fun getShop headers _ =>
    match getShop headers with
    | Except.error m => Handled.fail [] m
    | Except.ok _ =>
        Handled.ok [CapCall.clearInfoCacheCall]
          (Value.vObj [("success", Value.vBool true)])

/-- Embedding of the `POST /store-type` operation (`src/shop/store.ts`
lines 71-100). -/
def determineStoreType : Endpoint where
  method := Method.POST
  path := "/store-type"
  validate := fun params _ b =>
    (validateStoreTypeBody b).map fun sb => ⟨params, QueryV.qNone, BodyV.bStoreType sb⟩
  handle := fun getShop headers vi =>
    match getShop headers with
    | Except.error m => Handled.fail [] m
    | Except.ok shop =>
        match vi.body with
        | BodyV.bStoreType sb =>
            Handled.ok [CapCall.determineStoreTypeCall sb]
              (shop.determineStoreTypeResult sb)
        | _ => Handled.fail [] "unexpected input shape"

/-- Embedding of `buildStoreEndpoints` (`src/shop/store.ts`): the store
capability area's operations in source order.  The source builder takes
`getShop` and closes over it; the embedding passes the resolver at
dispatch time, which is equivalent because each handler's first action
is `getShop(ctx.headers)`. -/
def buildStoreEndpoints : List Endpoint :=
  [getInfo, clearInfoCache, determineStoreType]

/-- Embedding of the `GET /products/all` operation
(`src/shop/products.ts` lines 8-41). -/
def getAllProducts : Endpoint where
  method := Method.GET
  path := "/products/all"
  validate := fun params q _ => Except.ok ⟨params, currencyQueryV q, BodyV.bNone⟩
  handle := fun getShop headers vi =>
    match getShop headers with
    | Except.error m => Handled.fail [] m
    | Except.ok shop =>
        match vi.query with
        | QueryV.qCurrency cur =>
            Handled.ok [CapCall.productsAll cur] (shop.productsAllResult cur)
        | _ => Handled.fail [] "unexpected input shape"

/-- Embedding of the `GET /products/paginated` operation
(`src/shop/products.ts` lines 43-100): the piped query hands `page`,
`limit` and `currency` to `shop.products.paginated`. -/
def getPaginatedProducts : Endpoint where
  method := Method.GET
  path := "/products/paginated"
  validate := fun params q _ => Except.ok ⟨params, pagQueryV q, BodyV.bNone⟩
  handle := fun getShop headers vi =>
    match getShop headers with
    | Except.error m => Handled.fail [] m
    | Except.ok shop =>
        match vi.query with
        | QueryV.qPag page limit cur =>
            Handled.ok [CapCall.productsPaginated page limit cur]
              (shop.productsPaginatedResult page limit cur)
        | _ => Handled.fail [] "unexpected input shape"

/-- Embedding of the `GET /products/showcased` operation
(`src/shop/products.ts` lines 102-126). -/
def getShowcasedProducts : Endpoint where
  method := Method.GET
  path := "/products/showcased"
  validate := fun params _ _ => Except.ok ⟨params, QueryV.qNone, BodyV.bNone⟩
  handle := fun getShop headers _ =>
    match getShop headers with
    | Except.error m => Handled.fail [] m
    | Except.ok shop =>
        Handled.ok [CapCall.productsShowcased] shop.productsShowcasedResult

/-- Embedding of the `GET /products/filters` operation
(`src/shop/products.ts` lines 128-148). -/
def getProductFilters : Endpoint where
  method := Method.GET
  path := "/products/filters"
  validate := fun params _ _ => Except.ok ⟨params, QueryV.qNone, BodyV.bNone⟩
  handle := fun getShop headers _ =>
    match getShop headers with
    | Except.error m => Handled.fail [] m
    | Except.ok shop =>
        Handled.ok [CapCall.productsFilter] shop.productsFilterResult

/-- Embedding of the `GET /products/:handle` operation
(`src/shop/products.ts` lines 150-189): `shop.products.find` returning
a JS-falsy result (null) makes the handler throw "Product not found". -/
def getProduct : Endpoint where
  method := Method.GET
  path := "/products/:handle"
  validate := fun params q _ => Except.ok ⟨params, currencyQueryV q, BodyV.bNone⟩
  handle := fun getShop headers vi =>
    match getShop headers with
    | Except.error m => Handled.fail [] m
    | Except.ok shop =>
        match queryGet vi.params "handle", vi.query with
        | some h, QueryV.qCurrency cur =>
            (match shop.productsFindResult h cur with
             | none => Handled.fail [CapCall.productsFind h cur] "Product not found"
             | some p => Handled.ok [CapCall.productsFind h cur] p)
        | _, _ => Handled.fail [] "unexpected input shape"

/-- Embedding of the `POST /products/:handle/enriched` operation
(`src/shop/products.ts` lines 191-229). -/
def getEnrichedProduct : Endpoint where
  method := Method.POST
  path := "/products/:handle/enriched"
  validate := fun params _ b =>
    (validateEnrichedBody b).map fun eb => ⟨params, QueryV.qNone, BodyV.bEnriched eb⟩
  handle := fun getShop headers vi =>
    match getShop headers with
    | Except.error m => Handled.fail [] m
    | Except.ok shop =>
        match queryGet vi.params "handle", vi.body with
        | some h, BodyV.bEnriched eb =>
            Handled.ok [CapCall.productsEnriched h eb]
              (shop.productsEnrichedResult h eb)
        | _, _ => Handled.fail [] "unexpected input shape"

/-- Embedding of the `POST /products/:handle/classify` operation
(`src/shop/products.ts` lines 231-263). -/
def classifyProduct : Endpoint where
  method := Method.POST
  path := "/products/:handle/classify"
  validate := fun params _ b =>
    (validateClassifyBody b).map fun cb => ⟨params, QueryV.qNone, BodyV.bClassify cb⟩
  handle := fun getShop headers vi =>
    match getShop headers with
    | Except.error m => Handled.fail [] m
    | Except.ok shop =>
        match queryGet vi.params "handle", vi.body with
        | some h, BodyV.bClassify cb =>
            Handled.ok [CapCall.productsClassify h cb]
              (shop.productsClassifyResult h cb)
        | _, _ => Handled.fail [] "unexpected input shape"

/-- Embedding of the `POST /products/:handle/seo` operation
(`src/shop/products.ts` lines 265-300). -/
def generateProductSEO : Endpoint where
  method := Method.POST
  path := "/products/:handle/seo"
  validate := fun params _ b =>
    (validateClassifyBody b).map fun cb => ⟨params, QueryV.qNone, BodyV.bClassify cb⟩
  handle := fun getShop headers vi =>
    match getShop headers with
    | Except.error m => Handled.fail [] m
    | Except.ok shop =>
        match queryGet vi.params "handle", vi.body with
        | some h, BodyV.bClassify cb =>
            Handled.ok [CapCall.productsSEO h cb] (shop.productsSEOResult h cb)
        | _, _ => Handled.fail [] "unexpected input shape"

/-- Embedding of `buildProductEndpoints` (`src/shop/products.ts` lines
302-311): the product capability area's operations in source order. -/
def buildProductEndpoints : List Endpoint :=
  [getAllProducts, getPaginatedProducts, getShowcasedProducts,
   getProductFilters, getProduct, getEnrichedProduct, classifyProduct,
   generateProductSEO]

/-- Embedding of the `GET /collections/all` operation (collections
builder lines 8-32). -/
def getAllCollections : Endpoint where
  method := Method.GET
  path := "/collections/all"
  validate := fun params _ _ => Except.ok ⟨params, QueryV.qNone, BodyV.bNone⟩
  handle := fun getShop headers _ =>
    match getShop headers with
    | Except.error m => Handled.fail [] m
    | Except.ok shop =>
        Handled.ok [CapCall.collectionsAll] shop.collectionsAllResult

/-- Embedding of the `GET /collections/paginated` operation (collections
builder lines 34-81): same `page`/`limit` pipe, no currency. -/
def getPaginatedCollections : Endpoint where
  method := Method.GET
  path := "/collections/paginated"
  validate := fun params q _ => Except.ok ⟨params, pagNCQueryV q, BodyV.bNone⟩
  handle := fun getShop headers vi =>
    match getShop headers with
    | Except.error m => Handled.fail [] m
    | Except.ok shop =>
        match vi.query with
        | QueryV.qPagNC page limit =>
            Handled.ok [CapCall.collectionsPaginated page limit]
              (shop.collectionsPaginatedResult page limit)
        | _ => Handled.fail [] "unexpected input shape"

/-- Embedding of the `GET /collections/showcased` operation (collections
builder lines 83-107). -/
def getShowcasedCollections : Endpoint where
  method := Method.GET
  path := "/collections/showcased"
  validate := fun params _ _ => Except.ok ⟨params, QueryV.qNone, BodyV.bNone⟩
  handle := fun getShop headers _ =>
    match getShop headers with
    | Except.error m => Handled.fail [] m
    | Except.ok shop =>
        Handled.ok [CapCall.collectionsShowcased] shop.collectionsShowcasedResult

/-- Embedding of the `GET /collections/:handle` operation (collections
builder lines 109-139): a null `shop.collections.find` result makes the
handler throw "Collection not found". -/
def getCollection : Endpoint where
  method := Method.GET
  path := "/collections/:handle"
  validate := fun params _ _ => Except.ok ⟨params, QueryV.qNone, BodyV.bNone⟩
  handle := fun getShop headers vi =>
    match getShop headers with
    | Except.error m => Handled.fail [] m
    | Except.ok shop =>
        match queryGet vi.params "handle" with
        | some h =>
            (match shop.collectionsFindResult h with
             | none => Handled.fail [CapCall.collectionsFind h] "Collection not found"
             | some c => Handled.ok [CapCall.collectionsFind h] c)
        | none => Handled.fail [] "unexpected input shape"

/-- Embedding of the `GET /collections/:handle/products/all` operation
(collections builder lines 141-182). -/
def getCollectionProductsAll : Endpoint where
  method := Method.GET
  path := "/collections/:handle/products/all"
  validate := fun params q _ => Except.ok ⟨params, currencyQueryV q, BodyV.bNone⟩
  handle := fun getShop headers vi =>
    match getShop headers with
    | Except.error m => Handled.fail [] m
    | Except.ok shop =>
        match queryGet vi.params "handle", vi.query with
        | some h, QueryV.qCurrency cur =>
            Handled.ok [CapCall.colProductsAll h cur]
              (shop.colProductsAllResult h cur)
        | _, _ => Handled.fail [] "unexpected input shape"

/-- Embedding of the `GET /collections/:handle/products/paginated`
operation (collections builder lines 184-247). -/
def getCollectionProductsPaginated : Endpoint where
  method := Method.GET
  path := "/collections/:handle/products/paginated"
  validate := fun params q _ => Except.ok ⟨params, pagQueryV q, BodyV.bNone⟩
  handle := fun getShop headers vi =>
    match getShop headers with
    | Except.error m => Handled.fail [] m
    | Except.ok shop =>
        match queryGet vi.params "handle", vi.query with
        | some h, QueryV.qPag page limit cur =>
            Handled.ok [CapCall.colProductsPaginated h page limit cur]
              (shop.colProductsPaginatedResult h page limit cur)
        | _, _ => Handled.fail [] "unexpected input shape"

/-- Embedding of the `GET /collections/:handle/slugs` operation
(collections builder lines 249-281). -/
def getCollectionProductSlugs : Endpoint where
  method := Method.GET
  path := "/collections/:handle/slugs"
  validate := fun params _ _ => Except.ok ⟨params, QueryV.qNone, BodyV.bNone⟩
  handle := fun getShop headers vi =>
    match getShop headers with
    | Except.error m => Handled.fail [] m
    | Except.ok shop =>
        match queryGet vi.params "handle" with
        | some h =>
            Handled.ok [CapCall.colProductsSlugs h] (shop.colProductsSlugsResult h)
        | none => Handled.fail [] "unexpected input shape"

/-- Embedding of `buildCollectionEndpoints` (collections builder lines
283-292): the collection capability area's operations in source order. -/
def buildCollectionEndpoints : List Endpoint :=
  [getAllCollections, getPaginatedCollections, getShowcasedCollections,
   getCollection, getCollectionProductsAll, getCollectionProductsPaginated,
   getCollectionProductSlugs]

/-- Embedding of the `POST /checkout/url` operation (checkout builder):
the validated body is handed to `shop.checkout.createUrl` and the
returned URL string is wrapped as `{ url: <string> }`. -/
def createCheckoutUrl : Endpoint where
  method := Method.POST
  path := "/checkout/url"
  validate := fun params _ b =>
    (validateCheckoutBody b).map fun cb => ⟨params, QueryV.qNone, BodyV.bCheckout cb⟩
  handle := fun getShop headers vi =>
    match getShop headers with
    | Except.error m => Handled.fail [] m
    | Except.ok shop =>
        match vi.body with
        | BodyV.bCheckout cb =>
            Handled.ok [CapCall.checkoutCreateUrl cb]
              (Value.vObj [("url", Value.vStr (shop.checkoutCreateUrlResult cb))])
        | _ => Handled.fail [] "unexpected input shape"

/-- Embedding of `buildCheckoutEndpoints`. -/
def buildCheckoutEndpoints : List Endpoint :=
  [createCheckoutUrl]

/-- The operation registry assembled by `betterShop`
(`src/shop-service.ts` lines 42-77): the store, product, collection and
checkout builders' outputs in the order of the `createRouter` call.
The utility builder (`buildUtilsEndpoints`, `src/shop/utils.ts`) is not
merged in by the source. -/
def betterShopEndpoints : List Endpoint :=
  buildStoreEndpoints ++ buildProductEndpoints ++ buildCollectionEndpoints ++
    buildCheckoutEndpoints

/-- Result of one dispatched request: HTTP status, optional serialized
body, and the trace of delegate invocations performed. -/
structure Outcome where
  status : Nat
  body : Option Value
  calls : List CapCall

/-- Modelled from the spec: the better-call router's per-request
pipeline (§4.4, whose source is not part of this repository) —
RECEIVED, route match (no match is a terminal not-found response),
input validation (failure is a terminal client-error 400 response, the
handler never runs), handler execution (a thrown failure, including the
tenant-resolution failure raised by `getShop` on the handler's first
line, is caught and mapped to the generic 500 error response),
successful results serialized with status 200. -/
def dispatch (eps : List Endpoint) (getShop : GetShop) (req : Request) : Outcome :=
  match findRoute eps req.method req.path with
  | none => { status := 404, body := none, calls := [] }
  | some (e, params) =>
      match e.validate params req.query req.body with
      | Except.error _ => { status := 400, body := none, calls := [] }
      | Except.ok vi =>
          match e.handle getShop req.headers vi with
          | Handled.ok calls v => { status := 200, body := some v, calls := calls }
          | Handled.fail calls _ => { status := 500, body := none, calls := calls }

/-- Embedding of `betterShop` (`src/shop-service.ts` lines 17-78): a
router over the assembled registry whose tenant resolver is
`makeGetShop options` over the external client constructor. -/
def betterShop (impl : ClientCtor) (options : Option ShopClientOptions)
    (req : Request) : Outcome :=
  dispatch betterShopEndpoints (makeGetShop impl options) req

/-- The request carries no `x-shop-domain` header at all. -/
def tenantHeaderMissing (req : Request) : Prop :=
  headersGet req.headers "x-shop-domain" = none

/-- The router matches the request to some operation. -/
def routeMatched (eps : List Endpoint) (req : Request) : Bool :=
  (findRoute eps req.method req.path).isSome

/-- The matched operation's input validation succeeds on the request
(false when no route matches). -/
def routeValidates (eps : List Endpoint) (req : Request) : Bool :=
  match findRoute eps req.method req.path with
  | none => false
  | some (e, ps) =>
      match e.validate ps req.query req.body with
      | Except.ok _ => true
      | Except.error _ => false

/-- Identity pairs (method, path) of a registry. -/
def routePairs (eps : List Endpoint) : List (Method × String) :=
  eps.map (fun e => (e.method, e.path))

/-- Route identities defined by `buildUtilsEndpoints`
(`src/shop/utils.ts` lines 11-139), in source order. -/
def utilsRoutePairs : List (Method × String) :=
  [(Method.GET, "/utils/detect-country"),
   (Method.GET, "/utils/store-slug"),
   (Method.GET, "/utils/product-slug")]

/-- Modelled from the spec: the exact route table of §6. -/
def specRouteTable : List (Method × String) :=
  [(Method.GET, "/info"), (Method.POST, "/info/clear-cache"),
   (Method.POST, "/store-type"),
   (Method.GET, "/products/all"), (Method.GET, "/products/paginated"),
   (Method.GET, "/products/showcased"), (Method.GET, "/products/filters"),
   (Method.GET, "/products/:handle"),
   (Method.POST, "/products/:handle/enriched"),
   (Method.POST, "/products/:handle/classify"),
   (Method.POST, "/products/:handle/seo"),
   (Method.GET, "/collections/all"), (Method.GET, "/collections/paginated"),
   (Method.GET, "/collections/showcased"),
   (Method.GET, "/collections/:handle"),
   (Method.GET, "/collections/:handle/products/all"),
   (Method.GET, "/collections/:handle/products/paginated"),
   (Method.GET, "/collections/:handle/slugs"),
   (Method.POST, "/checkout/url"),
   (Method.GET, "/utils/store-slug"), (Method.GET, "/utils/product-slug"),
   (Method.GET, "/utils/detect-country")]

/-- Modelled from the spec: the construction-time registry merge (§3
OperationRegistry and §4.4 — the better-call `createRouter` merge is
not part of this repository's sources): combining two registries fails
immediately with a construction-time error when any operation identity
(method, path) occurs in both. -/
def mergeRegistries (r₁ r₂ : List Endpoint) : Except String (List Endpoint) :=
  if r₂.any (fun e => r₁.any (fun d => d.method == e.method && d.path == e.path))
  then Except.error "duplicate route"
  else Except.ok (r₁ ++ r₂)

/-- Concrete storefront client used as a witness implementation: the
find capabilities report every handle absent and checkout produces the
fixed URL of the repository's test mock. -/
def trivialClient : ShopClient where
  infoResult := fun _ => Value.vObj [("name", Value.vStr "Mock Store")]
  determineStoreTypeResult := fun _ => Value.vObj []
  productsAllResult := fun _ => Value.vArr []
  productsPaginatedResult := fun _ _ _ => Value.vArr []
  productsShowcasedResult := Value.vArr []
  productsFilterResult := Value.vObj []
  productsFindResult := fun _ _ => none
  productsEnrichedResult := fun _ _ => Value.vObj []
  productsClassifyResult := fun _ _ => Value.vObj []
  productsSEOResult := fun _ _ => Value.vObj []
  collectionsAllResult := Value.vArr []
  collectionsPaginatedResult := fun _ _ => Value.vArr []
  collectionsShowcasedResult := Value.vArr []
  collectionsFindResult := fun _ => none
  colProductsAllResult := fun _ _ => Value.vArr []
  colProductsPaginatedResult := fun _ _ _ _ => Value.vArr []
  colProductsSlugsResult := fun _ => Value.vArr []
  checkoutCreateUrlResult := fun _ => "https://checkout.url"

/-- Constructor returning the witness client for every domain. -/
def trivialCtor : ClientCtor := fun _ _ => trivialClient

/-- Headers carrying the tenant domain of the repository's tests. -/
def mockHeaders : Headers := [("x-shop-domain", "mock.myshopify.com")]

/-- Route search skips an endpoint whose method differs. -/
theorem findRoute_cons_of_method_ne {e : Endpoint} {rest : List Endpoint}
    {m : Method} {p : List String} (hne : ¬ (e.method = m)) :
    findRoute (e :: rest) m p = findRoute rest m p := by
  rw [findRoute, if_neg hne]

/-- Route search skips an endpoint whose pattern does not match. -/
theorem findRoute_cons_of_no_match {e : Endpoint} {rest : List Endpoint}
    {m : Method} {p : List String} (hm : e.method = m)
    (hms : matchSegs (segsOf e.path) p = none) :
    findRoute (e :: rest) m p = findRoute rest m p := by
  rw [findRoute, if_pos hm, hms]

/-- Route search stops at the first endpoint whose pattern matches. -/
theorem findRoute_cons_of_match {e : Endpoint} {rest : List Endpoint}
    {m : Method} {p : List String} {ps : List (String × String)}
    (hm : e.method = m) (hms : matchSegs (segsOf e.path) p = some ps) :
    findRoute (e :: rest) m p = some (e, ps) := by
  rw [findRoute, if_pos hm, hms]

/-- A matched route is a member of the registry it was found in. -/
theorem findRoute_mem {eps : List Endpoint} {m : Method} {p : List String}
    {e : Endpoint} {ps : List (String × String)}
    (h : findRoute eps m p = some (e, ps)) : e ∈ eps := by
  induction eps with
  | nil => simp [findRoute] at h
  | cons a rest ih =>
      rw [findRoute] at h
      by_cases hm : a.method = m
      · rw [if_pos hm] at h
        cases hms : matchSegs (segsOf a.path) p with
        | some ps' =>
            rw [hms] at h
            simp only [Option.some.injEq, Prod.mk.injEq] at h
            rcases h with ⟨rfl, rfl⟩
            exact List.mem_cons_self _ _
        | none =>
            rw [hms] at h
            exact List.mem_cons_of_mem a (ih h)
      · rw [if_neg hm] at h
        exact List.mem_cons_of_mem a (ih h)

/-- When the tenant resolver fails, every handler of the assembled
registry rethrows that failure before invoking any delegate capability:
each source handler's first statement is `const shop = getShop(ctx.headers)`. -/
theorem handle_of_getShop_error {e : Endpoint} (he : e ∈ betterShopEndpoints)
    (gs : GetShop) (h : Headers) (vi : VInput) (m : String)
    (hgs : gs h = Except.error m) :
    e.handle gs h vi = Handled.fail [] m := by
  simp only [betterShopEndpoints, buildStoreEndpoints, buildProductEndpoints,
    buildCollectionEndpoints, buildCheckoutEndpoints, List.append_assoc,
    List.cons_append, List.nil_append, List.mem_cons,
    List.not_mem_nil, or_false] at he
  rcases he with rfl | rfl | rfl | rfl | rfl | rfl | rfl | rfl | rfl | rfl |
    rfl | rfl | rfl | rfl | rfl | rfl | rfl | rfl | rfl <;>
    simp only [getInfo, clearInfoCache, determineStoreType, getAllProducts,
      getPaginatedProducts, getShowcasedProducts, getProductFilters,
      getProduct, getEnrichedProduct, classifyProduct, generateProductSEO,
      getAllCollections, getPaginatedCollections, getShowcasedCollections,
      getCollection, getCollectionProductsAll, getCollectionProductsPaginated,
      getCollectionProductSlugs, createCheckoutUrl, hgs]

/-- A missing tenant header makes `makeGetShop`'s resolver fail with the
"x-shop-domain header is required" error. -/
theorem makeGetShop_missing (impl : ClientCtor) (options : Option ShopClientOptions)
    (hs : Headers) (hmiss : headersGet hs "x-shop-domain" = none) :
    makeGetShop impl options hs = Except.error "x-shop-domain header is required" := by
  simp [makeGetShop, hmiss]

/-- A string with non-empty all-digit character data is parsed by the
`Number(..)` model to the integer its digits denote. -/
theorem jsNumber_digits (s : String) (h1 : s.data ≠ [])
    (h2 : s.data.all Char.isDigit = true) :
    jsNumber s = JsNum.int (digitsVal s.data) := by
  cases hd : s.data with
  | nil => exact absurd hd h1
  | cons c cs =>
      rw [hd] at h2
      have hcd : c.isDigit = true := by
        rw [List.all_cons, Bool.and_eq_true] at h2
        exact h2.1
      have hneg : ¬ (c = '-') := by
        intro he
        rw [he] at hcd
        exact absurd hcd (by decide)
      have hplus : ¬ (c = '+') := by
        intro he
        rw [he] at hcd
        exact absurd hcd (by decide)
      simp [jsNumber, hd, hneg, hplus, h2]

/-- A non-empty string query value is truthy, so the pagination pipe
coerces it with `Number(..)`. -/
theorem coerceNum_str (s : String) (h : s ≠ "") :
    coerceNum (some (StrNum.s s)) = some (jsNumber s) := by
  simp [coerceNum, truthy, h]

/-- A string whose character data is non-empty is not the empty string. -/
theorem ne_empty_of_data (s : String) (h : s.data ≠ []) : s ≠ "" := by
  intro he
  rw [he] at h
  exact h rfl

/-- Requests used as concrete evaluation inputs below. -/
def reqInfoNoHeader : Request :=
  ⟨Method.GET, ["info"], [], [], none⟩

/-- The end-to-end `GET /info` request of the tests, with the tenant
header and no query string. -/
def reqInfoNoQuery : Request :=
  ⟨Method.GET, ["info"], mockHeaders, [], none⟩

/-- `GET /products/paginated` with no query parameters. -/
def reqPagNoQuery : Request :=
  ⟨Method.GET, ["products", "paginated"], mockHeaders, [], none⟩

/-- `GET /products/all` with no query parameters. -/
def reqAllNoQuery : Request :=
  ⟨Method.GET, ["products", "all"], mockHeaders, [], none⟩

/-- `GET /products/paginated?page=s&limit=t`. -/
def pagReq (s t : String) : Request :=
  ⟨Method.GET, ["products", "paginated"], mockHeaders,
   [("page", s), ("limit", t)], none⟩

/-- `GET /products/paginated?page=abc`. -/
def reqPagAbc : Request :=
  ⟨Method.GET, ["products", "paginated"], mockHeaders, [("page", "abc")], none⟩

/-- `GET /collections/paginated?page=abc`. -/
def reqColPagAbc : Request :=
  ⟨Method.GET, ["collections", "paginated"], mockHeaders, [("page", "abc")], none⟩

/-- `GET /collections/summer/products/paginated?page=abc`. -/
def reqColProdPagAbc : Request :=
  ⟨Method.GET, ["collections", "summer", "products", "paginated"], mockHeaders,
   [("page", "abc")], none⟩

/-- `GET /products/:handle` request for a given handle. -/
def productReq (h : String) : Request :=
  ⟨Method.GET, ["products", h], mockHeaders, [], none⟩

/-- `GET /collections/:handle` request for a given handle. -/
def collectionReq (h : String) : Request :=
  ⟨Method.GET, ["collections", h], mockHeaders, [], none⟩

/-- `POST /checkout/url` request with the tenant header and a body. -/
def checkoutReq (b : Option Value) : Request :=
  ⟨Method.POST, ["checkout", "url"], mockHeaders, [], b⟩

/-- `POST /checkout/url` with no tenant header and an invalid body (the
repository test's invalid payload: non-email `email`, empty `items`, no
`address`). -/
def reqCheckoutNoHeaderBadBody : Request :=
  ⟨Method.POST, ["checkout", "url"], [], [],
   some (Value.vObj [("email", Value.vStr "invalid-email"),
                     ("items", Value.vArr [])])⟩

/-- `GET /utils/store-slug?domain=Shop.Example.com` with the tenant
header, as the repository's utility-endpoint test issues it. -/
def reqUtilsStoreSlug : Request :=
  ⟨Method.GET, ["utils", "store-slug"], mockHeaders,
   [("domain", "Shop.Example.com")], none⟩

/-- `POST /info/clear-cache` with the tenant header. -/
def reqClearCache : Request :=
  ⟨Method.POST, ["info", "clear-cache"], mockHeaders, [], none⟩

/-- A well-formed checkout address value (the tests' payload). -/
def mockAddressV : Value :=
  Value.vObj [("firstName", Value.vStr "John"), ("lastName", Value.vStr "Doe"),
              ("address1", Value.vStr "123 St"), ("city", Value.vStr "City"),
              ("zip", Value.vStr "12345"), ("country", Value.vStr "US"),
              ("province", Value.vStr "CA"), ("phone", Value.vStr "1234567890")]

/-- The validated form of `mockAddressV`. -/
def mockAddress : Address :=
  ⟨"John", "Doe", "123 St", "City", "12345", "US", "CA", "1234567890"⟩

/-- A checkout body with a well-formed email and address but an empty
`items` array. -/
def emptyItemsBodyV : Value :=
  Value.vObj [("email", Value.vStr "test@example.com"),
              ("items", Value.vArr []), ("address", mockAddressV)]

/-- The validated form of `emptyItemsBodyV`. -/
def emptyItemsCB : CheckoutBody :=
  ⟨"test@example.com", [], mockAddress⟩

/-- A checkout body that is complete except that `email` is not in email
format. -/
def badEmailBodyV : Value :=
  Value.vObj [("email", Value.vStr "invalid-email"),
              ("items", Value.vArr []), ("address", mockAddressV)]

/-- With any handle distinct from the literal product sub-routes, a
`GET /products/:handle` request is matched to the `getProduct`
operation with the handle bound. -/
theorem findRoute_product (h : String) (hp1 : h ≠ "all") (hp2 : h ≠ "paginated")
    (hp3 : h ≠ "showcased") (hp4 : h ≠ "filters") :
    findRoute betterShopEndpoints Method.GET ["products", h] =
      some (getProduct, [("handle", h)]) := by
  have hlist : betterShopEndpoints =
      [getInfo, clearInfoCache, determineStoreType, getAllProducts,
       getPaginatedProducts, getShowcasedProducts, getProductFilters,
       getProduct, getEnrichedProduct, classifyProduct, generateProductSEO,
       getAllCollections, getPaginatedCollections, getShowcasedCollections,
       getCollection, getCollectionProductsAll, getCollectionProductsPaginated,
       getCollectionProductSlugs, createCheckoutUrl] := rfl
  have m_all : matchSegs (segsOf getAllProducts.path) ["products", h] = none := by
    have e : matchSegs (segsOf getAllProducts.path) ["products", h] =
        if "all" = h then some [] else none := rfl
    rw [e, if_neg (Ne.symm hp1)]
  have m_pag : matchSegs (segsOf getPaginatedProducts.path) ["products", h] = none := by
    have e : matchSegs (segsOf getPaginatedProducts.path) ["products", h] =
        if "paginated" = h then some [] else none := rfl
    rw [e, if_neg (Ne.symm hp2)]
  have m_show : matchSegs (segsOf getShowcasedProducts.path) ["products", h] = none := by
    have e : matchSegs (segsOf getShowcasedProducts.path) ["products", h] =
        if "showcased" = h then some [] else none := rfl
    rw [e, if_neg (Ne.symm hp3)]
  have m_filt : matchSegs (segsOf getProductFilters.path) ["products", h] = none := by
    have e : matchSegs (segsOf getProductFilters.path) ["products", h] =
        if "filters" = h then some [] else none := rfl
    rw [e, if_neg (Ne.symm hp4)]
  rw [hlist,
    findRoute_cons_of_no_match (show getInfo.method = Method.GET from rfl)
      (show matchSegs (segsOf getInfo.path) ["products", h] = none from rfl),
    findRoute_cons_of_method_ne
      (show ¬ (clearInfoCache.method = Method.GET) from by decide),
    findRoute_cons_of_method_ne
      (show ¬ (determineStoreType.method = Method.GET) from by decide),
    findRoute_cons_of_no_match (show getAllProducts.method = Method.GET from rfl) m_all,
    findRoute_cons_of_no_match
      (show getPaginatedProducts.method = Method.GET from rfl) m_pag,
    findRoute_cons_of_no_match
      (show getShowcasedProducts.method = Method.GET from rfl) m_show,
    findRoute_cons_of_no_match
      (show getProductFilters.method = Method.GET from rfl) m_filt,
    findRoute_cons_of_match (show getProduct.method = Method.GET from rfl)
      (show matchSegs (segsOf getProduct.path) ["products", h] =
        some [("handle", h)] from rfl)]

/-- With any handle distinct from the literal collection sub-routes, a
`GET /collections/:handle` request is matched to the `getCollection`
operation with the handle bound. -/
theorem findRoute_collection (h : String) (hp1 : h ≠ "all")
    (hp2 : h ≠ "paginated") (hp3 : h ≠ "showcased") :
    findRoute betterShopEndpoints Method.GET ["collections", h] =
      some (getCollection, [("handle", h)]) := by
  have hlist : betterShopEndpoints =
      [getInfo, clearInfoCache, determineStoreType, getAllProducts,
       getPaginatedProducts, getShowcasedProducts, getProductFilters,
       getProduct, getEnrichedProduct, classifyProduct, generateProductSEO,
       getAllCollections, getPaginatedCollections, getShowcasedCollections,
       getCollection, getCollectionProductsAll, getCollectionProductsPaginated,
       getCollectionProductSlugs, createCheckoutUrl] := rfl
  have m_all : matchSegs (segsOf getAllCollections.path) ["collections", h] = none := by
    have e : matchSegs (segsOf getAllCollections.path) ["collections", h] =
        if "all" = h then some [] else none := rfl
    rw [e, if_neg (Ne.symm hp1)]
  have m_pag : matchSegs (segsOf getPaginatedCollections.path) ["collections", h] = none := by
    have e : matchSegs (segsOf getPaginatedCollections.path) ["collections", h] =
        if "paginated" = h then some [] else none := rfl
    rw [e, if_neg (Ne.symm hp2)]
  have m_show : matchSegs (segsOf getShowcasedCollections.path) ["collections", h] = none := by
    have e : matchSegs (segsOf getShowcasedCollections.path) ["collections", h] =
        if "showcased" = h then some [] else none := rfl
    rw [e, if_neg (Ne.symm hp3)]
  rw [hlist,
    findRoute_cons_of_no_match (show getInfo.method = Method.GET from rfl)
      (show matchSegs (segsOf getInfo.path) ["collections", h] = none from rfl),
    findRoute_cons_of_method_ne
      (show ¬ (clearInfoCache.method = Method.GET) from by decide),
    findRoute_cons_of_method_ne
      (show ¬ (determineStoreType.method = Method.GET) from by decide),
    findRoute_cons_of_no_match (show getAllProducts.method = Method.GET from rfl)
      (show matchSegs (segsOf getAllProducts.path) ["collections", h] = none from rfl),
    findRoute_cons_of_no_match
      (show getPaginatedProducts.method = Method.GET from rfl)
      (show matchSegs (segsOf getPaginatedProducts.path) ["collections", h] =
        none from rfl),
    findRoute_cons_of_no_match
      (show getShowcasedProducts.method = Method.GET from rfl)
      (show matchSegs (segsOf getShowcasedProducts.path) ["collections", h] =
        none from rfl),
    findRoute_cons_of_no_match
      (show getProductFilters.method = Method.GET from rfl)
      (show matchSegs (segsOf getProductFilters.path) ["collections", h] =
        none from rfl),
    findRoute_cons_of_no_match (show getProduct.method = Method.GET from rfl)
      (show matchSegs (segsOf getProduct.path) ["collections", h] = none from rfl),
    findRoute_cons_of_method_ne
      (show ¬ (getEnrichedProduct.method = Method.GET) from by decide),
    findRoute_cons_of_method_ne
      (show ¬ (classifyProduct.method = Method.GET) from by decide),
    findRoute_cons_of_method_ne
      (show ¬ (generateProductSEO.method = Method.GET) from by decide),
    findRoute_cons_of_no_match
      (show getAllCollections.method = Method.GET from rfl) m_all,
    findRoute_cons_of_no_match
      (show getPaginatedCollections.method = Method.GET from rfl) m_pag,
    findRoute_cons_of_no_match
      (show getShowcasedCollections.method = Method.GET from rfl) m_show,
    findRoute_cons_of_match (show getCollection.method = Method.GET from rfl)
      (show matchSegs (segsOf getCollection.path) ["collections", h] =
        some [("handle", h)] from rfl)]

/-- C4: for the find-by-handle operations `GET /products/:handle` and
`GET /collections/:handle`, when the storefront client's find
capability reports the handle absent (null), the handler raises a
thrown not-found failure and the dispatcher answers with the error
status 500 and no body — never a 200 success with a null body.  The
handle is assumed distinct from the literal sibling routes so that the
request is matched to the find-by-handle operation. -/
theorem c4_find_not_found (impl : ClientCtor) (opts : Option ShopClientOptions)
    (h : String) (hp1 : h ≠ "all") (hp2 : h ≠ "paginated")
    (hp3 : h ≠ "showcased") (hp4 : h ≠ "filters")
    (hfp : (impl "mock.myshopify.com" opts).productsFindResult h none = none)
    (hfc : (impl "mock.myshopify.com" opts).collectionsFindResult h = none) :
    ((betterShop impl opts (productReq h)).status = 500 ∧
      (betterShop impl opts (productReq h)).body = none) ∧
    ((betterShop impl opts (collectionReq h)).status = 500 ∧
      (betterShop impl opts (collectionReq h)).body = none) := by
  have hok : makeGetShop impl opts mockHeaders =
      Except.ok (impl "mock.myshopify.com" opts) := rfl
  constructor
  · simp only [betterShop, dispatch, productReq]
    rw [findRoute_product h hp1 hp2 hp3 hp4]
    simp only [getProduct, hok, queryGet, currencyQueryV, List.find?,
      beq_self_eq_true, Option.map_some', Option.map_none', hfp]
    exact ⟨trivial, trivial⟩
  · simp only [betterShop, dispatch, collectionReq]
    rw [findRoute_collection h hp1 hp2 hp3]
    simp only [getCollection, hok, queryGet, List.find?, beq_self_eq_true,
      Option.map_some', Option.map_none', hfc]
    exact ⟨trivial, trivial⟩

/-- C4 (witness): with the witness client, whose find capabilities
report every handle absent, the handle "missing" satisfies the
hypotheses and both find-by-handle requests are answered with status
500 and no body. -/
theorem c4_find_not_found_witness :
    ((betterShop trivialCtor none (productReq "missing")).status = 500 ∧
      (betterShop trivialCtor none (productReq "missing")).body = none) ∧
    ((betterShop trivialCtor none (collectionReq "missing")).status = 500 ∧
      (betterShop trivialCtor none (collectionReq "missing")).body = none) :=
  c4_find_not_found trivialCtor none "missing" (by decide) (by decide)
    (by decide) (by decide) rfl rfl

/-- C1 (counterexample): a request whose headers do not contain the
`x-shop-domain` header but whose body fails the matched operation's
input validation — here `POST /checkout/url` with a non-email `email`
and no `address` — is answered with the validation-failure status 400,
not the identification-failure status 500, because validation runs
before the handler (and hence before tenant resolution) in the
dispatch pipeline. -/
theorem c1_counterexample :
    tenantHeaderMissing reqCheckoutNoHeaderBadBody ∧
    (betterShop trivialCtor none reqCheckoutNoHeaderBadBody).status = 400 ∧
    (betterShop trivialCtor none reqCheckoutNoHeaderBadBody).status ≠ 500 := by
  refine ⟨rfl, rfl, by decide⟩

/-- C1 (amended): for every request whose headers do not contain the
`x-shop-domain` tenant header, no capability of the external storefront
client is invoked, and every route of the assembled router whose input
validation succeeds on the request returns the identification-failure
status 500. -/
theorem c1_tenant_missing (impl : ClientCtor) (opts : Option ShopClientOptions)
    (req : Request) (hmiss : tenantHeaderMissing req) :
    (betterShop impl opts req).calls = [] ∧
    (routeValidates betterShopEndpoints req = true →
      (betterShop impl opts req).status = 500) := by
  have hgs : makeGetShop impl opts req.headers =
      Except.error "x-shop-domain header is required" :=
    makeGetShop_missing impl opts req.headers hmiss
  cases hf : findRoute betterShopEndpoints req.method req.path with
  | none => simp [betterShop, dispatch, routeValidates, hf]
  | some r =>
      obtain ⟨e, ps⟩ := r
      cases hv : e.validate ps req.query req.body with
      | error msg => simp [betterShop, dispatch, routeValidates, hf, hv]
      | ok vi =>
          have hmem := findRoute_mem hf
          have hh := handle_of_getShop_error hmem (makeGetShop impl opts)
            req.headers vi _ hgs
          simp [betterShop, dispatch, routeValidates, hf, hv, hh]

/-- C1 (witness): the `GET /info` request with no headers satisfies the
hypotheses — its validation succeeds — and is answered with status 500
and an empty delegate-call trace. -/
theorem c1_tenant_missing_witness :
    tenantHeaderMissing reqInfoNoHeader ∧
    routeValidates betterShopEndpoints reqInfoNoHeader = true ∧
    (betterShop trivialCtor none reqInfoNoHeader).calls = [] ∧
    (betterShop trivialCtor none reqInfoNoHeader).status = 500 := by
  refine ⟨rfl, rfl, (c1_tenant_missing trivialCtor none reqInfoNoHeader rfl).1,
    (c1_tenant_missing trivialCtor none reqInfoNoHeader rfl).2 rfl⟩

/-- C2: the three utility routes of the spec's route table (`GET
/utils/store-slug`, `GET /utils/product-slug`, `GET
/utils/detect-country`) are absent from the registry assembled by
`betterShop` — `src/shop-service.ts` never merges `buildUtilsEndpoints`
— so a request to `/utils/store-slug` with the tenant header present is
answered with the no-match status 404 instead of being matched to an
operation.  This contradicts both the spec's route table and the
repository's own utility-endpoint tests, which issue these requests
against `betterShop()` and expect matched slug operations. -/
theorem c2_utils_routes_missing :
    ((Method.GET, "/utils/store-slug") ∈ specRouteTable ∧
      (Method.GET, "/utils/store-slug") ∉ routePairs betterShopEndpoints) ∧
    ((Method.GET, "/utils/product-slug") ∈ specRouteTable ∧
      (Method.GET, "/utils/product-slug") ∉ routePairs betterShopEndpoints) ∧
    ((Method.GET, "/utils/detect-country") ∈ specRouteTable ∧
      (Method.GET, "/utils/detect-country") ∉ routePairs betterShopEndpoints) ∧
    (∀ r ∈ utilsRoutePairs, r ∉ routePairs betterShopEndpoints) ∧
    (betterShop trivialCtor none reqUtilsStoreSlug).status = 404 := by
  refine ⟨⟨by decide, by decide⟩, ⟨by decide, by decide⟩,
    ⟨by decide, by decide⟩, by decide, rfl⟩

/-- C3 (counterexample): a `POST /checkout/url` body whose `items` array
is empty but whose `email` and `address` are well-formed passes the
checkout schema — arktype's `.array()` accepts the empty array — so the
response is a 200 success and the checkout capability IS invoked with
the empty item list, refuting the claim that an empty `items` array
yields the validation-failure status 400 with no delegate call. -/
theorem c3_counterexample :
    (betterShop trivialCtor none (checkoutReq (some emptyItemsBodyV))).status = 200 ∧
    (betterShop trivialCtor none (checkoutReq (some emptyItemsBodyV))).calls =
      [CapCall.checkoutCreateUrl emptyItemsCB] := by
  exact ⟨rfl, rfl⟩

/-- C3 (amended): for every `POST /checkout/url` request whose body
fails the checkout schema — in particular a body whose `email` is not in
email format — the response status is the validation-failure status 400
and the checkout capability of the storefront client is never invoked;
an empty `items` array alone, however, satisfies the schema. -/
theorem c3_checkout_validation (impl : ClientCtor) (opts : Option ShopClientOptions)
    (b : Option Value) (m : String)
    (hbad : validateCheckoutBody b = Except.error m) :
    (betterShop impl opts (checkoutReq b)).status = 400 ∧
    (betterShop impl opts (checkoutReq b)).calls = [] := by
  have hf : findRoute betterShopEndpoints Method.POST ["checkout", "url"] =
      some (createCheckoutUrl, []) := rfl
  simp [betterShop, dispatch, checkoutReq, hf, createCheckoutUrl, hbad, Except.map]

/-- C3 (witness): the body whose `email` is the non-email string
"invalid-email" fails the schema with the email-format error, and the
request carrying it is answered with status 400 and no delegate call. -/
theorem c3_checkout_validation_witness :
    validateCheckoutBody (some badEmailBodyV) =
      Except.error "email must be an email address" ∧
    (betterShop trivialCtor none (checkoutReq (some badEmailBodyV))).status = 400 ∧
    (betterShop trivialCtor none (checkoutReq (some badEmailBodyV))).calls = [] := by
  refine ⟨rfl, ?_, ?_⟩
  · exact (c3_checkout_validation trivialCtor none (some badEmailBodyV) _ rfl).1
  · exact (c3_checkout_validation trivialCtor none (some badEmailBodyV) _ rfl).2

/-- C5: for every `GET /products/paginated` request whose `page` and
`limit` query values are non-empty digit strings — in particular
`page=2&limit=10` — the paginated capability of the storefront client
receives `page` and `limit` as the numbers the digits denote, not as
strings. -/
theorem c5_pagination_coercion (impl : ClientCtor) (opts : Option ShopClientOptions)
    (s t : String) (hs1 : s.data ≠ []) (hs2 : s.data.all Char.isDigit = true)
    (ht1 : t.data ≠ []) (ht2 : t.data.all Char.isDigit = true) :
    (betterShop impl opts (pagReq s t)).calls =
      [CapCall.productsPaginated (some (JsNum.int (digitsVal s.data)))
        (some (JsNum.int (digitsVal t.data))) none] := by
  have hf : findRoute betterShopEndpoints Method.GET ["products", "paginated"] =
      some (getPaginatedProducts, []) := rfl
  have hok : makeGetShop impl opts mockHeaders =
      Except.ok (impl "mock.myshopify.com" opts) := rfl
  have hs : coerceNum (some (StrNum.s s)) = some (JsNum.int (digitsVal s.data)) := by
    rw [coerceNum_str s (ne_empty_of_data s hs1), jsNumber_digits s hs1 hs2]
  have ht : coerceNum (some (StrNum.s t)) = some (JsNum.int (digitsVal t.data)) := by
    rw [coerceNum_str t (ne_empty_of_data t ht1), jsNumber_digits t ht1 ht2]
  have q1 : queryGet [("page", s), ("limit", t)] "page" = some s := rfl
  have q2 : queryGet [("page", s), ("limit", t)] "limit" = some t := rfl
  have q3 : queryGet [("page", s), ("limit", t)] "currency" = none := rfl
  simp only [betterShop, dispatch, pagReq]
  rw [hf]
  simp only [getPaginatedProducts, pagQueryV, q1, q2, q3, Option.map_some',
    Option.map_none', hs, ht, hok]

/-- C5 (witness): the request `GET /products/paginated?page=2&limit=10`
satisfies the digit-string hypotheses and hands the delegate the
numbers 2 and 10. -/
theorem c5_pagination_coercion_witness :
    ("2" : String).data ≠ [] ∧ ("2" : String).data.all Char.isDigit = true ∧
    ("10" : String).data ≠ [] ∧ ("10" : String).data.all Char.isDigit = true ∧
    (betterShop trivialCtor none (pagReq "2" "10")).calls =
      [CapCall.productsPaginated (some (JsNum.int 2)) (some (JsNum.int 10)) none] := by
  refine ⟨by decide, by decide, by decide, by decide, ?_⟩
  have h := c5_pagination_coercion trivialCtor none "2" "10" (by decide)
    (by decide) (by decide) (by decide)
  have e2 : digitsVal ("2" : String).data = 2 := by decide
  have e10 : digitsVal ("10" : String).data = 10 := by decide
  rw [e2, e10] at h
  exact h

/-- C6 (counterexample): `GET /info` with the `force` query parameter
omitted does not pass `force` to the store-info capability as absent:
the arktype pipe `{ force: v.force === "true" }` runs on the omitted
value and produces the boolean `false`, which is what the capability
receives (`shop.getInfo({ force: false })`). -/
theorem c6_counterexample :
    infoQueryV [] = QueryV.qForce false ∧
    (betterShop trivialCtor none reqInfoNoQuery).calls =
      [CapCall.getInfoCall false] :=
  ⟨rfl, rfl⟩

/-- C6 (amended): omitted optional query parameters `page`, `limit` and
`currency` are handed to the capability call as absent, never as zero or
the empty string; the omitted `force` parameter of `GET /info`, however,
is coerced by the schema pipe to the boolean `false` and handed to the
store-info capability as `false`, not as absent. -/
theorem c6_omitted_optionals (impl : ClientCtor) (opts : Option ShopClientOptions) :
    (betterShop impl opts reqPagNoQuery).calls =
      [CapCall.productsPaginated none none none] ∧
    (betterShop impl opts reqAllNoQuery).calls = [CapCall.productsAll none] ∧
    (betterShop impl opts reqInfoNoQuery).calls = [CapCall.getInfoCall false] :=
  ⟨rfl, rfl, rfl⟩

/-- C7: a request that is matched to an operation, fails that
operation's input validation, and lacks the `x-shop-domain` tenant
header is answered with the validation-failure status 400 and no
delegate call: validation runs strictly before the handler, whose first
action is tenant resolution, so the tenant-identification failure 500
is never surfaced for such a request. -/
theorem c7_validation_before_tenant (impl : ClientCtor)
    (opts : Option ShopClientOptions) (req : Request)
    (_hmiss : tenantHeaderMissing req)
    (hmatch : routeMatched betterShopEndpoints req = true)
    (hval : routeValidates betterShopEndpoints req = false) :
    (betterShop impl opts req).status = 400 ∧
    (betterShop impl opts req).calls = [] := by
  cases hf : findRoute betterShopEndpoints req.method req.path with
  | none => simp [routeMatched, hf] at hmatch
  | some r =>
      obtain ⟨e, ps⟩ := r
      cases hv : e.validate ps req.query req.body with
      | error msg => simp [betterShop, dispatch, hf, hv]
      | ok vi => simp [routeValidates, hf, hv] at hval

/-- C7 (witness): the `POST /checkout/url` request with no headers and
an invalid body satisfies the hypotheses and is answered with status
400 and no delegate call. -/
theorem c7_validation_before_tenant_witness :
    tenantHeaderMissing reqCheckoutNoHeaderBadBody ∧
    routeMatched betterShopEndpoints reqCheckoutNoHeaderBadBody = true ∧
    routeValidates betterShopEndpoints reqCheckoutNoHeaderBadBody = false ∧
    (betterShop trivialCtor none reqCheckoutNoHeaderBadBody).status = 400 ∧
    (betterShop trivialCtor none reqCheckoutNoHeaderBadBody).calls = [] := by
  refine ⟨rfl, rfl, rfl, ?_, ?_⟩
  · exact (c7_validation_before_tenant trivialCtor none
      reqCheckoutNoHeaderBadBody rfl rfl rfl).1
  · exact (c7_validation_before_tenant trivialCtor none
      reqCheckoutNoHeaderBadBody rfl rfl rfl).2

/-- C8: merging two endpoint-builder outputs that both define an
operation with the same (method, path) identity fails at
router-construction time with a construction-time error — the merge
yields no registry at all, so no request can ever be served from it. -/
theorem c8_merge_collision (r₁ r₂ : List Endpoint) (e₁ e₂ : Endpoint)
    (h1 : e₁ ∈ r₁) (h2 : e₂ ∈ r₂)
    (hm : e₁.method = e₂.method) (hp : e₁.path = e₂.path) :
    mergeRegistries r₁ r₂ = Except.error "duplicate route" := by
  have hinner : (r₁.any fun d => d.method == e₂.method && d.path == e₂.path) = true :=
    List.any_eq_true.mpr ⟨e₁, h1, by rw [hm, hp]; simp⟩
  have hcond : (r₂.any fun e =>
      r₁.any fun d => d.method == e.method && d.path == e.path) = true :=
    List.any_eq_true.mpr ⟨e₂, h2, hinner⟩
  unfold mergeRegistries
  rw [if_pos hcond]

/-- C8 (witness): merging the store builder's output with a registry
that defines `GET /info` again fails with the construction-time error. -/
theorem c8_merge_collision_witness :
    getInfo ∈ buildStoreEndpoints ∧
    mergeRegistries buildStoreEndpoints [getInfo] =
      Except.error "duplicate route" := by
  constructor
  · exact List.mem_cons_self _ _
  · exact c8_merge_collision buildStoreEndpoints [getInfo] getInfo getInfo
      (List.mem_cons_self _ _) (List.mem_cons_self _ _) rfl rfl

/-- C9: `POST /info/clear-cache` with the tenant header returns status
200 with body `{ success: true }` for every storefront client
implementation and configuration — i.e. regardless of any prior cache
state the client holds — and the outcome of the operation is identical
across arbitrary re-invocations (the dispatch outcome does not depend
on the client at all), so repeated calls are safe and idempotent. -/
theorem c9_clear_cache_idempotent (impl impl' : ClientCtor)
    (opts opts' : Option ShopClientOptions) :
    (betterShop impl opts reqClearCache).status = 200 ∧
    (betterShop impl opts reqClearCache).body =
      some (Value.vObj [("success", Value.vBool true)]) ∧
    (betterShop impl opts reqClearCache).calls = [CapCall.clearInfoCacheCall] ∧
    betterShop impl opts reqClearCache = betterShop impl' opts' reqClearCache :=
  ⟨rfl, rfl, rfl, rfl⟩

/-- C10: every string value of `page` satisfies the paginated input
schema (`string|number`), so `page=abc` yields no validation failure on
any of the three paginated operations: each request is answered 200 and
the delegate receives NaN for the non-numeric coerced parameter
(`Number("abc")`). -/
theorem c10_nonnumeric_page_nan (impl : ClientCtor)
    (opts : Option ShopClientOptions) :
    ((betterShop impl opts reqPagAbc).status = 200 ∧
      (betterShop impl opts reqPagAbc).calls =
        [CapCall.productsPaginated (some JsNum.nan) none none]) ∧
    ((betterShop impl opts reqColPagAbc).status = 200 ∧
      (betterShop impl opts reqColPagAbc).calls =
        [CapCall.collectionsPaginated (some JsNum.nan) none]) ∧
    ((betterShop impl opts reqColProdPagAbc).status = 200 ∧
      (betterShop impl opts reqColProdPagAbc).calls =
        [CapCall.colProductsPaginated "summer" (some JsNum.nan) none none]) ∧
    (∀ s : String, ∃ vi, getPaginatedProducts.validate [] [("page", s)] none =
      Except.ok vi) :=
  ⟨⟨rfl, rfl⟩, ⟨rfl, rfl⟩, ⟨rfl, rfl⟩, fun _ => ⟨_, rfl⟩⟩

end BetterShop
